import Mathlib

/-!
Shallow embedding of `wangle::SSLContextConfig`
(src/third-party/wangle/src/wangle/ssl/SSLContextConfig.h) and proofs about
its builder operations.

The struct is a plain value object: a list of certificate sources, a list of
delegated-credential sources, cipher-policy strings, a weighted
next-protocol advertisement list, client-verification policy and key-offload
policy, together with set/add style builder member functions.  We translate
the struct and each member function directly; `std::vector`/`std::list`
become `List`, `std::set<std::string>` becomes a `List String` (only its
emptiness matters here), `folly::Optional` becomes `Option`.
-/

namespace Wangle

/-- `SSLContextConfig::CertificateInfo` (SSLContextConfig.h lines 47-61):
certificate path, key path, password path and an `isBuffer` flag
(member initializer `bool isBuffer{false}`). -/
structure CertificateInfo where
  certPath : String
  keyPath : String
  passwordPath : String
  isBuffer : Bool
deriving DecidableEq, Repr

/-- The three-argument constructor
`CertificateInfo(crtPath, kyPath, passwdPath)`: fills the three path
fields, leaves `isBuffer` at its initializer `false`. -/
def CertificateInfo.mkFile (crtPath kyPath passwdPath : String) :
    CertificateInfo :=
  { certPath := crtPath, keyPath := kyPath, passwordPath := passwdPath,
    isBuffer := false }

/-- The two-argument constructor `CertificateInfo(crtBuf, kyBuf)`: stores the
buffers in `certPath`/`keyPath`, sets `isBuffer := true`, and leaves
`passwordPath` default-constructed (the empty string). -/
def CertificateInfo.mkBuf (crtBuf kyBuf : String) : CertificateInfo :=
  { certPath := crtBuf, keyPath := kyBuf, passwordPath := "",
    isBuffer := true }

/-- `SSLContextConfig::DelegatedCredInfo` (lines 70-72): one combined-PEM
path. -/
structure DelegatedCredInfo where
  combinedCertPath : String
deriving DecidableEq, Repr

/-- `SSLContextConfig::IssuerType` (line 63). -/
inductive IssuerType where
  | PUBLIC_CA
  | PROD_CA
  | PUBLIC_TO_PRODCA
deriving DecidableEq, Repr

/-- Modelled from the spec: `folly::SSLContext::SSLVersion` is declared in
folly, which is absent from src/; the source only uses its `TLSv1_2`
value (line 152).  The variant set follows folly's enumeration. -/
inductive SSLVersion where
  | SSLv2
  | SSLv3
  | TLSv1
  | TLSv1_2
  | TLSv1_3
deriving DecidableEq, Repr

/-- Modelled from the spec: `folly::SSLContext::VerifyClientCertificate` is
declared in folly, absent from src/; the spec calls for "variants at least:
always-verify, optional, none".  The source only uses `ALWAYS` (line 172). -/
inductive VerifyClientCertificate where
  | ALWAYS
  | IF_PRESENTED
  | DO_NOT_REQUEST
deriving DecidableEq, Repr

/-- Modelled from the spec: `folly::SSLContext::NextProtocolsItem` is
declared in folly, absent from src/; per the spec each advertisement entry
"pairs a weight with an ordered sequence of protocol name strings", and the
source constructs one with `emplace_back(1, inNextProtocols)` (line 145). -/
structure NextProtocolsItem where
  weight : Nat
  protocols : List String
deriving DecidableEq, Repr

/-- `SSLContextConfig::KeyOffloadParams` (lines 92-101).  `offloadType` is a
`std::set<std::string>`, modelled as its ordered element list. -/
structure KeyOffloadParams where
  offloadType : List String
  serviceId : String
  enableCertOffload : Bool
deriving DecidableEq, Repr

/-- Member initializers of `KeyOffloadParams`: empty `offloadType`,
`serviceId{"default"}`, `enableCertOffload{false}`. -/
def KeyOffloadParams.default : KeyOffloadParams :=
  { offloadType := [], serviceId := "default", enableCertOffload := false }

/-- Modelled from the spec: the canonical ordered name lists supplied by
`folly::ssl::SSLServerOptions` (`ciphers()`, `ciphersuites()`, `sigalgs()`),
which are absent from src/.  The spec describes them as "an ordered list of
algorithm/cipher names from a fixed canonical source", fixed per process; we
carry them as an explicit parameter of everything that reads them. -/
structure CanonicalBaseline where
  ciphers : List String
  ciphersuites : List String
  sigalgs : List String
deriving DecidableEq, Repr

/-- `SSLContextConfig::getDefaultCiphers` (lines 74-78):
`folly::join(':', folly::ssl::SSLServerOptions::ciphers())`.
`folly::join` of ':' over a string list is the colon-separated
concatenation, i.e. `String.intercalate ":"`. -/
def getDefaultCiphers (b : CanonicalBaseline) : String :=
  String.intercalate ":" b.ciphers

/-- `SSLContextConfig::getDefaultCiphersuites` (lines 80-84). -/
def getDefaultCiphersuites (b : CanonicalBaseline) : String :=
  String.intercalate ":" b.ciphersuites

/-- `SSLContextConfig::getDefaultSigAlgs` (lines 86-90). -/
def getDefaultSigAlgs (b : CanonicalBaseline) : String :=
  String.intercalate ":" b.sigalgs

/-- `wangle::SSLContextConfig` (lines 39-200): every data member, in
declaration order (lines 150-199). -/
structure SSLContextConfig where
  certificates : List CertificateInfo
  delegatedCredentials : List DelegatedCredInfo
  sslVersion : SSLVersion
  sessionCacheEnabled : Bool
  sessionTicketEnabled : Bool
  sslCiphers : String
  sslCiphersuites : String
  sigAlgs : String
  eccCurveName : String
  nextProtocols : List NextProtocolsItem
  isLocalPrivateKey : Bool
  isDefault : Bool
  clientCAFile : String
  clientCAFiles : List String
  clientVerification : VerifyClientCertificate
  keyOffloadParams : KeyOffloadParams
  offloadDisabled : Bool
  domains : List String
  shouldLoadFromProdCA : Bool
  issuerType : IssuerType
  sessionContext : Option String
  alpnAllowMismatch : Bool
deriving DecidableEq, Repr

namespace SSLContextConfig

/-- `SSLContextConfig() = default`: every member takes its in-class
initializer (lines 150-199); the three policy strings initialize from the
static default getters, which read the process baseline `b`. -/
def mkDefault (b : CanonicalBaseline) : SSLContextConfig :=
  { certificates := []
    delegatedCredentials := []
    sslVersion := SSLVersion.TLSv1_2
    sessionCacheEnabled := true
    sessionTicketEnabled := true
    sslCiphers := getDefaultCiphers b
    sslCiphersuites := getDefaultCiphersuites b
    sigAlgs := getDefaultSigAlgs b
    eccCurveName := "prime256v1"
    nextProtocols := []
    isLocalPrivateKey := true
    isDefault := false
    clientCAFile := ""
    clientCAFiles := []
    clientVerification := VerifyClientCertificate.ALWAYS
    keyOffloadParams := KeyOffloadParams.default
    offloadDisabled := true
    domains := []
    shouldLoadFromProdCA := false
    issuerType := IssuerType.PUBLIC_CA
    sessionContext := none
    alpnAllowMismatch := true }

/-- `addCertificate(certPath, keyPath, passwordPath)` (lines 119-124):
`certificates.emplace_back(certPath, keyPath, passwordPath)`. -/
def addCertificate (c : SSLContextConfig)
    (certPath keyPath passwordPath : String) : SSLContextConfig :=
  { c with certificates :=
      c.certificates ++ [CertificateInfo.mkFile certPath keyPath passwordPath] }

/-- `setCertificate(certPath, keyPath, passwordPath)` (lines 106-112):
`certificates.clear(); addCertificate(certPath, keyPath, passwordPath)`. -/
def setCertificate (c : SSLContextConfig)
    (certPath keyPath passwordPath : String) : SSLContextConfig :=
  addCertificate { c with certificates := [] } certPath keyPath passwordPath

/-- `addCertificateBuf(cert, key)` (lines 126-128):
`certificates.emplace_back(cert, key)`. -/
def addCertificateBuf (c : SSLContextConfig) (cert key : String) :
    SSLContextConfig :=
  { c with certificates :=
      c.certificates ++ [CertificateInfo.mkBuf cert key] }

/-- `setCertificateBuf(cert, key)` (lines 114-117):
`certificates.clear(); addCertificateBuf(cert, key)`. -/
def setCertificateBuf (c : SSLContextConfig) (cert key : String) :
    SSLContextConfig :=
  addCertificateBuf { c with certificates := [] } cert key

/-- `addDelegatedCredential(credPath)` (lines 135-137):
`delegatedCredentials.emplace_back(DelegatedCredInfo{credPath})`. -/
def addDelegatedCredential (c : SSLContextConfig) (credPath : String) :
    SSLContextConfig :=
  { c with delegatedCredentials :=
      c.delegatedCredentials ++ [DelegatedCredInfo.mk credPath] }

/-- `setDelegatedCredential(credPath)` (lines 130-133):
`delegatedCredentials.clear(); addDelegatedCredential(credPath)`. -/
def setDelegatedCredential (c : SSLContextConfig) (credPath : String) :
    SSLContextConfig :=
  addDelegatedCredential { c with delegatedCredentials := [] } credPath

/-- `setNextProtocols(inNextProtocols)` (lines 143-146):
`nextProtocols.clear(); nextProtocols.emplace_back(1, inNextProtocols)`. -/
def setNextProtocols (c : SSLContextConfig)
    (inNextProtocols : List String) : SSLContextConfig :=
  let cleared := { c with nextProtocols := [] }
  { cleared with nextProtocols :=
      cleared.nextProtocols ++ [NextProtocolsItem.mk 1 inNextProtocols] }

end SSLContextConfig

/-- One call against the certificate list: the four certificate builder
member functions, with their string arguments. -/
inductive CertOp where
  | set (certPath keyPath passwordPath : String)
  | add (certPath keyPath passwordPath : String)
  | setBuf (cert key : String)
  | addBuf (cert key : String)
deriving DecidableEq, Repr

/-- Execute one certificate builder call on a configuration. -/
def applyCertOp (c : SSLContextConfig) : CertOp → SSLContextConfig
  | CertOp.set p k w => c.setCertificate p k w
  | CertOp.add p k w => c.addCertificate p k w
  | CertOp.setBuf ct k => c.setCertificateBuf ct k
  | CertOp.addBuf ct k => c.addCertificateBuf ct k

/-- Execute a sequence of certificate builder calls, left to right. -/
def applyCertOps (c : SSLContextConfig) (ops : List CertOp) :
    SSLContextConfig :=
  ops.foldl applyCertOp c

/-- Whether the call is a set-style (clearing) call. -/
def CertOp.isSet : CertOp → Bool
  | CertOp.set _ _ _ => true
  | CertOp.setBuf _ _ => true
  | CertOp.add _ _ _ => false
  | CertOp.addBuf _ _ => false

/-- The single `CertificateInfo` entry a call appends. -/
def CertOp.entry : CertOp → CertificateInfo
  | CertOp.set p k w => CertificateInfo.mkFile p k w
  | CertOp.add p k w => CertificateInfo.mkFile p k w
  | CertOp.setBuf ct k => CertificateInfo.mkBuf ct k
  | CertOp.addBuf ct k => CertificateInfo.mkBuf ct k

/-- The last set-style call of a sequence, together with the calls made
after it, when a set-style call exists. -/
def lastSetSplit : List CertOp → Option (CertOp × List CertOp)
  | [] => none
  | op :: rest =>
    match lastSetSplit rest with
    | some (s, tail) => some (s, tail)
    | none => if op.isSet then some (op, rest) else none

/-- The certificate list the spec predicts for a call sequence: replay only
the calls after the last set-style call, preceded by that call's single
entry; with no set-style call, the initial list extended by every call's
entry. -/
def specCertList (init : List CertificateInfo) (ops : List CertOp) :
    List CertificateInfo :=
  match lastSetSplit ops with
  | some (s, tail) => s.entry :: tail.map CertOp.entry
  | none => init ++ ops.map CertOp.entry

/-- One call against the delegated-credential list. -/
inductive DCOp where
  | set (credPath : String)
  | add (credPath : String)
deriving DecidableEq, Repr

/-- Execute one delegated-credential builder call. -/
def applyDCOp (c : SSLContextConfig) : DCOp → SSLContextConfig
  | DCOp.set p => c.setDelegatedCredential p
  | DCOp.add p => c.addDelegatedCredential p

/-- Execute a sequence of delegated-credential builder calls, left to
right. -/
def applyDCOps (c : SSLContextConfig) (ops : List DCOp) : SSLContextConfig :=
  ops.foldl applyDCOp c

/-- Whether the call is the clearing `setDelegatedCredential`. -/
def DCOp.isSet : DCOp → Bool
  | DCOp.set _ => true
  | DCOp.add _ => false

/-- The single `DelegatedCredInfo` entry a call appends. -/
def DCOp.entry : DCOp → DelegatedCredInfo
  | DCOp.set p => DelegatedCredInfo.mk p
  | DCOp.add p => DelegatedCredInfo.mk p

/-- The last `setDelegatedCredential` call of a sequence, with the calls
made after it. -/
def lastDCSetSplit : List DCOp → Option (DCOp × List DCOp)
  | [] => none
  | op :: rest =>
    match lastDCSetSplit rest with
    | some (s, tail) => some (s, tail)
    | none => if op.isSet then some (op, rest) else none

/-- The delegated-credential list the spec predicts: the net effect of the
sequence read left to right, with set as clear-then-append and add as
append. -/
def specDCList (init : List DelegatedCredInfo) (ops : List DCOp) :
    List DelegatedCredInfo :=
  match lastDCSetSplit ops with
  | some (s, tail) => s.entry :: tail.map DCOp.entry
  | none => init ++ ops.map DCOp.entry

/-- Any builder call of the component: a certificate call, a
delegated-credential call, or `setNextProtocols`. -/
inductive BuilderOp where
  | cert (op : CertOp)
  | dc (op : DCOp)
  | np (protocolNames : List String)
deriving DecidableEq, Repr

/-- Execute one builder call. -/
def applyBuilderOp (c : SSLContextConfig) : BuilderOp → SSLContextConfig
  | BuilderOp.cert op => applyCertOp c op
  | BuilderOp.dc op => applyDCOp c op
  | BuilderOp.np ps => c.setNextProtocols ps

/-- Execute a sequence of builder calls, left to right. -/
def applyBuilderOps (c : SSLContextConfig) (ops : List BuilderOp) :
    SSLContextConfig :=
  ops.foldl applyBuilderOp c

/-- `a` and `b` agree on every `SSLContextConfig` field other than
`certificates`. -/
def agreeOutsideCertificates (a b : SSLContextConfig) : Prop :=
  a.delegatedCredentials = b.delegatedCredentials ∧
  a.sslVersion = b.sslVersion ∧
  a.sessionCacheEnabled = b.sessionCacheEnabled ∧
  a.sessionTicketEnabled = b.sessionTicketEnabled ∧
  a.sslCiphers = b.sslCiphers ∧
  a.sslCiphersuites = b.sslCiphersuites ∧
  a.sigAlgs = b.sigAlgs ∧
  a.eccCurveName = b.eccCurveName ∧
  a.nextProtocols = b.nextProtocols ∧
  a.isLocalPrivateKey = b.isLocalPrivateKey ∧
  a.isDefault = b.isDefault ∧
  a.clientCAFile = b.clientCAFile ∧
  a.clientCAFiles = b.clientCAFiles ∧
  a.clientVerification = b.clientVerification ∧
  a.keyOffloadParams = b.keyOffloadParams ∧
  a.offloadDisabled = b.offloadDisabled ∧
  a.domains = b.domains ∧
  a.shouldLoadFromProdCA = b.shouldLoadFromProdCA ∧
  a.issuerType = b.issuerType ∧
  a.sessionContext = b.sessionContext ∧
  a.alpnAllowMismatch = b.alpnAllowMismatch

/-- `a` and `b` agree on every `SSLContextConfig` field other than
`delegatedCredentials`. -/
def agreeOutsideDelegatedCreds (a b : SSLContextConfig) : Prop :=
  a.certificates = b.certificates ∧
  a.sslVersion = b.sslVersion ∧
  a.sessionCacheEnabled = b.sessionCacheEnabled ∧
  a.sessionTicketEnabled = b.sessionTicketEnabled ∧
  a.sslCiphers = b.sslCiphers ∧
  a.sslCiphersuites = b.sslCiphersuites ∧
  a.sigAlgs = b.sigAlgs ∧
  a.eccCurveName = b.eccCurveName ∧
  a.nextProtocols = b.nextProtocols ∧
  a.isLocalPrivateKey = b.isLocalPrivateKey ∧
  a.isDefault = b.isDefault ∧
  a.clientCAFile = b.clientCAFile ∧
  a.clientCAFiles = b.clientCAFiles ∧
  a.clientVerification = b.clientVerification ∧
  a.keyOffloadParams = b.keyOffloadParams ∧
  a.offloadDisabled = b.offloadDisabled ∧
  a.domains = b.domains ∧
  a.shouldLoadFromProdCA = b.shouldLoadFromProdCA ∧
  a.issuerType = b.issuerType ∧
  a.sessionContext = b.sessionContext ∧
  a.alpnAllowMismatch = b.alpnAllowMismatch

/-- `a` and `b` agree on every `SSLContextConfig` field other than
`nextProtocols`. -/
def agreeOutsideNextProtocols (a b : SSLContextConfig) : Prop :=
  a.certificates = b.certificates ∧
  a.delegatedCredentials = b.delegatedCredentials ∧
  a.sslVersion = b.sslVersion ∧
  a.sessionCacheEnabled = b.sessionCacheEnabled ∧
  a.sessionTicketEnabled = b.sessionTicketEnabled ∧
  a.sslCiphers = b.sslCiphers ∧
  a.sslCiphersuites = b.sslCiphersuites ∧
  a.sigAlgs = b.sigAlgs ∧
  a.eccCurveName = b.eccCurveName ∧
  a.isLocalPrivateKey = b.isLocalPrivateKey ∧
  a.isDefault = b.isDefault ∧
  a.clientCAFile = b.clientCAFile ∧
  a.clientCAFiles = b.clientCAFiles ∧
  a.clientVerification = b.clientVerification ∧
  a.keyOffloadParams = b.keyOffloadParams ∧
  a.offloadDisabled = b.offloadDisabled ∧
  a.domains = b.domains ∧
  a.shouldLoadFromProdCA = b.shouldLoadFromProdCA ∧
  a.issuerType = b.issuerType ∧
  a.sessionContext = b.sessionContext ∧
  a.alpnAllowMismatch = b.alpnAllowMismatch

/-! ## Helper lemmas -/

theorem applyCertOps_cons (c : SSLContextConfig) (op : CertOp)
    (ops : List CertOp) :
    applyCertOps c (op :: ops) = applyCertOps (applyCertOp c op) ops := rfl

theorem applyDCOps_cons (c : SSLContextConfig) (op : DCOp) (ops : List DCOp) :
    applyDCOps c (op :: ops) = applyDCOps (applyDCOp c op) ops := rfl

theorem applyBuilderOps_cons (c : SSLContextConfig) (op : BuilderOp)
    (ops : List BuilderOp) :
    applyBuilderOps c (op :: ops) =
      applyBuilderOps (applyBuilderOp c op) ops := rfl

/-- The certificate list after one call: a set-style call leaves exactly the
call's entry; an add-style call appends it. -/
theorem applyCertOp_certificates (c : SSLContextConfig) (op : CertOp) :
    (applyCertOp c op).certificates =
      if op.isSet then [op.entry] else c.certificates ++ [op.entry] := by
  cases op <;> rfl

/-- Pushing one leading call into the spec-side replay list. -/
theorem specCertList_cons (init : List CertificateInfo) (op : CertOp)
    (rest : List CertOp) :
    specCertList init (op :: rest) =
      specCertList (if op.isSet then [op.entry] else init ++ [op.entry])
        rest := by
  cases h : lastSetSplit rest with
  | some st =>
    obtain ⟨s, tail⟩ := st
    simp [specCertList, lastSetSplit, h]
  | none =>
    cases hs : op.isSet with
    | true => simp [specCertList, lastSetSplit, h, hs]
    | false => simp [specCertList, lastSetSplit, h, hs]

/-- The delegated-credential list after one call. -/
theorem applyDCOp_delegatedCredentials (c : SSLContextConfig) (op : DCOp) :
    (applyDCOp c op).delegatedCredentials =
      if op.isSet then [op.entry]
      else c.delegatedCredentials ++ [op.entry] := by
  cases op <;> rfl

/-- Pushing one leading call into the spec-side delegated-credential replay
list. -/
theorem specDCList_cons (init : List DelegatedCredInfo) (op : DCOp)
    (rest : List DCOp) :
    specDCList init (op :: rest) =
      specDCList (if op.isSet then [op.entry] else init ++ [op.entry])
        rest := by
  cases h : lastDCSetSplit rest with
  | some st =>
    obtain ⟨s, tail⟩ := st
    simp [specDCList, lastDCSetSplit, h]
  | none =>
    cases hs : op.isSet with
    | true => simp [specDCList, lastDCSetSplit, h, hs]
    | false => simp [specDCList, lastDCSetSplit, h, hs]

/-- The entry appended by any certificate builder call carries no password
when it is buffer-sourced: the file constructor sets `isBuffer := false`,
the buffer constructor leaves `passwordPath` empty. -/
theorem CertOp.entry_buffer_empty_password (op : CertOp) :
    op.entry.isBuffer = true → op.entry.passwordPath = "" := by
  cases op <;>
    simp [CertOp.entry, CertificateInfo.mkFile, CertificateInfo.mkBuf]

/-- The buffer-no-password invariant is preserved by every sequence of
certificate builder calls. -/
theorem certOps_entry_ok (c : SSLContextConfig)
    (hc : ∀ e ∈ c.certificates, e.isBuffer = true → e.passwordPath = "")
    (ops : List CertOp) :
    ∀ e ∈ (applyCertOps c ops).certificates,
      e.isBuffer = true → e.passwordPath = "" := by
  induction ops generalizing c with
  | nil => exact hc
  | cons op rest ih =>
    rw [applyCertOps_cons]
    refine ih (applyCertOp c op) ?_
    intro e he
    rw [applyCertOp_certificates] at he
    cases hs : op.isSet with
    | true =>
      rw [hs] at he
      simp at he
      subst he
      exact op.entry_buffer_empty_password
    | false =>
      rw [hs] at he
      simp at he
      rcases he with he | he
      · exact hc e he
      · subst he
        exact op.entry_buffer_empty_password

/-- One builder call of any kind leaves the client-verification mode and the
client trust material untouched. -/
theorem applyBuilderOp_client_fields (c : SSLContextConfig)
    (op : BuilderOp) :
    (applyBuilderOp c op).clientVerification = c.clientVerification ∧
    (applyBuilderOp c op).clientCAFile = c.clientCAFile ∧
    (applyBuilderOp c op).clientCAFiles = c.clientCAFiles := by
  cases op with
  | cert op => cases op <;> exact ⟨rfl, rfl, rfl⟩
  | dc op => cases op <;> exact ⟨rfl, rfl, rfl⟩
  | np ps => exact ⟨rfl, rfl, rfl⟩

/-- A sequence of builder calls leaves the client-verification mode and the
client trust material untouched. -/
theorem applyBuilderOps_client_fields (c : SSLContextConfig)
    (ops : List BuilderOp) :
    (applyBuilderOps c ops).clientVerification = c.clientVerification ∧
    (applyBuilderOps c ops).clientCAFile = c.clientCAFile ∧
    (applyBuilderOps c ops).clientCAFiles = c.clientCAFiles := by
  induction ops generalizing c with
  | nil => exact ⟨rfl, rfl, rfl⟩
  | cons op rest ih =>
    obtain ⟨h1, h2, h3⟩ := ih (applyBuilderOp c op)
    obtain ⟨g1, g2, g3⟩ := applyBuilderOp_client_fields c op
    rw [applyBuilderOps_cons]
    exact ⟨h1.trans g1, h2.trans g2, h3.trans g3⟩

/-! ## Claim theorems -/

/-- C1: for every sequence of certificate builder calls (in particular every
sequence of `setCertificate`/`addCertificate` calls) applied to a
configuration, the resulting `certificates` list equals the list obtained by
replaying only the calls made after the last set-style call, preceded by
that call's single entry: set clears and appends one entry, add appends
without clearing, and entry order equals call order. -/
theorem certificates_replay_last_set (c : SSLContextConfig)
    (ops : List CertOp) :
    (applyCertOps c ops).certificates = specCertList c.certificates ops := by
  induction ops generalizing c with
  | nil => simp [applyCertOps, specCertList, lastSetSplit]
  | cons op rest ih =>
    rw [applyCertOps_cons, specCertList_cons, ← applyCertOp_certificates]
    exact ih (applyCertOp c op)

/-- C2 counterexample: `setNextProtocols([])` does not leave `nextProtocols`
empty — the code unconditionally emplaces one entry, so the advertisement
list of a fresh configuration after `setNextProtocols([])` is nonempty. -/
theorem setNextProtocols_empty_advert_nonempty :
    ((SSLContextConfig.mkDefault ⟨[], [], []⟩).setNextProtocols
        []).nextProtocols ≠ [] := by
  simp [SSLContextConfig.setNextProtocols]

/-- C2 amended: `setNextProtocols([])` leaves `nextProtocols` holding
exactly one entry with weight 1 and an empty protocol-name sequence — the
"off" state is represented by the entry's empty protocol list, not by an
empty advertisement list or a special flag. -/
theorem setNextProtocols_empty_single_entry (c : SSLContextConfig) :
    (c.setNextProtocols []).nextProtocols = [NextProtocolsItem.mk 1 []] :=
  rfl

/-- C3: along any sequence of certificate builder calls, every stored entry
with `isBuffer = true` has an empty `passwordPath`; in particular
`setCertificateBuf("CERT","KEY")` leaves a sole entry with
`isBuffer = true` and empty `passwordPath`. -/
theorem buffer_entries_no_password (c : SSLContextConfig)
    (hc : ∀ e ∈ c.certificates, e.isBuffer = true → e.passwordPath = "")
    (ops : List CertOp) :
    (∀ e ∈ (applyCertOps c ops).certificates,
        e.isBuffer = true → e.passwordPath = "") ∧
    (c.setCertificateBuf "CERT" "KEY").certificates =
      [CertificateInfo.mkBuf "CERT" "KEY"] ∧
    (CertificateInfo.mkBuf "CERT" "KEY").isBuffer = true ∧
    (CertificateInfo.mkBuf "CERT" "KEY").passwordPath = "" :=
  ⟨certOps_entry_ok c hc ops, rfl, rfl, rfl⟩

/-- Witness for C3: a fresh configuration satisfies the invariant
hypothesis, and the conclusion holds for a concrete call sequence. -/
theorem buffer_entries_no_password_witness :
    (∀ e ∈ (SSLContextConfig.mkDefault ⟨[], [], []⟩).certificates,
        e.isBuffer = true → e.passwordPath = "") ∧
    ∀ e ∈ (applyCertOps (SSLContextConfig.mkDefault ⟨[], [], []⟩)
        [CertOp.setBuf "C" "K", CertOp.add "a" "b" "pw"]).certificates,
      e.isBuffer = true → e.passwordPath = "" :=
  ⟨by simp [SSLContextConfig.mkDefault],
    (buffer_entries_no_password (SSLContextConfig.mkDefault ⟨[], [], []⟩)
        (by simp [SSLContextConfig.mkDefault])
        [CertOp.setBuf "C" "K", CertOp.add "a" "b" "pw"]).1⟩

/-- C4: `setNextProtocols(L)` removes all existing advertisement entries and
installs exactly one entry of weight 1 whose protocol-name sequence is `L`
in order; in particular for `L = ["h2","http/1.1"]`. -/
theorem setNextProtocols_single_weighted_entry (c : SSLContextConfig)
    (inNextProtocols : List String) :
    (c.setNextProtocols inNextProtocols).nextProtocols =
      [NextProtocolsItem.mk 1 inNextProtocols] ∧
    (c.setNextProtocols ["h2", "http/1.1"]).nextProtocols =
      [NextProtocolsItem.mk 1 ["h2", "http/1.1"]] :=
  ⟨rfl, rfl⟩

/-- C5: any two freshly constructed configurations over the same process
baseline observe identical cipher, TLS-1.3 ciphersuite and
signature-algorithm strings, each the colon-join of the baseline's
canonical list (computed by the shared static default getters). -/
theorem default_policy_strings_shared (b : CanonicalBaseline)
    (x y : SSLContextConfig) (hx : x = SSLContextConfig.mkDefault b)
    (hy : y = SSLContextConfig.mkDefault b) :
    x.sslCiphers = y.sslCiphers ∧
    x.sslCiphersuites = y.sslCiphersuites ∧
    x.sigAlgs = y.sigAlgs ∧
    x.sslCiphers = String.intercalate ":" b.ciphers ∧
    x.sslCiphersuites = String.intercalate ":" b.ciphersuites ∧
    x.sigAlgs = String.intercalate ":" b.sigalgs := by
  subst hx
  subst hy
  exact ⟨rfl, rfl, rfl, rfl, rfl, rfl⟩

/-- Witness for C5: two fresh instances over a concrete baseline agree on
the cipher string. -/
theorem default_policy_strings_shared_witness :
    SSLContextConfig.mkDefault ⟨["A", "B"], ["C"], ["D"]⟩ =
      SSLContextConfig.mkDefault ⟨["A", "B"], ["C"], ["D"]⟩ ∧
    (SSLContextConfig.mkDefault ⟨["A", "B"], ["C"], ["D"]⟩).sslCiphers =
      String.intercalate ":" ["A", "B"] :=
  ⟨rfl,
    (default_policy_strings_shared ⟨["A", "B"], ["C"], ["D"]⟩
        (SSLContextConfig.mkDefault ⟨["A", "B"], ["C"], ["D"]⟩)
        (SSLContextConfig.mkDefault ⟨["A", "B"], ["C"], ["D"]⟩)
        rfl rfl).2.2.2.1⟩

/-- C6: no sequence of certificate builder calls on a fresh configuration
can store an ambiguous entry, i.e. one that is buffer-sourced yet carries a
nonempty password locator: the builder boundary accepts no password
argument together with buffer semantics. -/
theorem no_ambiguous_entry_storable (b : CanonicalBaseline)
    (ops : List CertOp) (e : CertificateInfo)
    (he : e ∈ (applyCertOps (SSLContextConfig.mkDefault b)
        ops).certificates) :
    ¬(e.isBuffer = true ∧ e.passwordPath ≠ "") := by
  rintro ⟨hb, hp⟩
  exact hp (certOps_entry_ok (SSLContextConfig.mkDefault b)
    (by simp [SSLContextConfig.mkDefault]) ops e he hb)

/-- Witness for C6: the entry stored by a concrete `setCertificateBuf` call
is in the certificates list and is not ambiguous. -/
theorem no_ambiguous_entry_storable_witness :
    CertificateInfo.mkBuf "C" "K" ∈
      (applyCertOps (SSLContextConfig.mkDefault ⟨[], [], []⟩)
        [CertOp.setBuf "C" "K"]).certificates ∧
    ¬((CertificateInfo.mkBuf "C" "K").isBuffer = true ∧
      (CertificateInfo.mkBuf "C" "K").passwordPath ≠ "") :=
  ⟨List.mem_singleton.mpr rfl,
    no_ambiguous_entry_storable ⟨[], [], []⟩ [CertOp.setBuf "C" "K"]
      (CertificateInfo.mkBuf "C" "K") (List.mem_singleton.mpr rfl)⟩

/-- C7: for every sequence of `setDelegatedCredential` and
`addDelegatedCredential` calls, `delegatedCredentials` is the net effect of
the sequence read left to right — set clears then appends one entry with the
given locator, add appends without clearing. -/
theorem delegated_credentials_replay (c : SSLContextConfig)
    (ops : List DCOp) (credPath : String) :
    (applyDCOps c ops).delegatedCredentials =
      specDCList c.delegatedCredentials ops ∧
    (c.setDelegatedCredential credPath).delegatedCredentials =
      [DelegatedCredInfo.mk credPath] ∧
    (c.addDelegatedCredential credPath).delegatedCredentials =
      c.delegatedCredentials ++ [DelegatedCredInfo.mk credPath] := by
  refine ⟨?_, rfl, rfl⟩
  induction ops generalizing c with
  | nil => simp [applyDCOps, specDCList, lastDCSetSplit]
  | cons op rest ih =>
    rw [applyDCOps_cons, specDCList_cons, ← applyDCOp_delegatedCredentials]
    exact ih (applyDCOp c op)

/-- C8: a freshly constructed configuration has an empty offload key-type
set, service identifier `"default"`, certificate offload disabled, and the
`offloadDisabled` gate set to true. -/
theorem fresh_config_key_offload_defaults (b : CanonicalBaseline) :
    (SSLContextConfig.mkDefault b).keyOffloadParams.offloadType = [] ∧
    (SSLContextConfig.mkDefault b).keyOffloadParams.serviceId = "default" ∧
    (SSLContextConfig.mkDefault b).keyOffloadParams.enableCertOffload =
      false ∧
    (SSLContextConfig.mkDefault b).offloadDisabled = true :=
  ⟨rfl, rfl, rfl, rfl⟩

/-- C9: a freshly constructed configuration verifies clients always while
its trust material is empty, and no builder operation rejects that
combination — every builder call is total and leaves the combination
intact, so the state "always verify, no trust files" is representable. -/
theorem fresh_config_always_verify_no_trust (b : CanonicalBaseline) :
    ((SSLContextConfig.mkDefault b).clientVerification =
        VerifyClientCertificate.ALWAYS ∧
     (SSLContextConfig.mkDefault b).clientCAFile = "" ∧
     (SSLContextConfig.mkDefault b).clientCAFiles = []) ∧
    ∀ ops : List BuilderOp,
      (applyBuilderOps (SSLContextConfig.mkDefault b)
          ops).clientVerification = VerifyClientCertificate.ALWAYS ∧
      (applyBuilderOps (SSLContextConfig.mkDefault b) ops).clientCAFile =
        "" ∧
      (applyBuilderOps (SSLContextConfig.mkDefault b) ops).clientCAFiles =
        [] := by
  refine ⟨⟨rfl, rfl, rfl⟩, fun ops => ?_⟩
  obtain ⟨h1, h2, h3⟩ :=
    applyBuilderOps_client_fields (SSLContextConfig.mkDefault b) ops
  exact ⟨h1, h2, h3⟩

/-- C10: each certificate builder call modifies only `certificates`; each
delegated-credential call modifies only `delegatedCredentials`;
`setNextProtocols` modifies only `nextProtocols` — every other field of the
configuration is unchanged. -/
theorem builder_calls_frame (c : SSLContextConfig) :
    (∀ op : CertOp, agreeOutsideCertificates c (applyCertOp c op)) ∧
    (∀ op : DCOp, agreeOutsideDelegatedCreds c (applyDCOp c op)) ∧
    ∀ inNextProtocols : List String,
      agreeOutsideNextProtocols c
        (c.setNextProtocols inNextProtocols) := by
  refine ⟨fun op => ?_, fun op => ?_, fun ps => ?_⟩
  · cases op <;>
      exact ⟨rfl, rfl, rfl, rfl, rfl, rfl, rfl, rfl, rfl, rfl, rfl, rfl,
        rfl, rfl, rfl, rfl, rfl, rfl, rfl, rfl, rfl⟩
  · cases op <;>
      exact ⟨rfl, rfl, rfl, rfl, rfl, rfl, rfl, rfl, rfl, rfl, rfl, rfl,
        rfl, rfl, rfl, rfl, rfl, rfl, rfl, rfl, rfl⟩
  · exact ⟨rfl, rfl, rfl, rfl, rfl, rfl, rfl, rfl, rfl, rfl, rfl, rfl,
      rfl, rfl, rfl, rfl, rfl, rfl, rfl, rfl, rfl⟩

end Wangle
